import Mathlib

/-!
Verification development for the ChatFeedManager repository.

The definitions below are a shallow embedding of the Python sources:
  * `src/ChatManager/services/router_bank.py`  (router/bank, gamble FIFO, slots evaluation)
  * `src/ChatManager/gamble_queue.py`          (standalone copy of the gamble FIFO)
  * `src/ChatManager/services/emitter.py`      (reply formatting / clamping)

Python machine integers are embedded as `Int` (Python ints are unbounded, so no
modular arithmetic is needed).  Python dictionaries owned by the router
(`user_state`, `inflight`) are embedded as association lists.  Fallible Python
code (expressions that can raise) is embedded with `Except Unit`.
JSON values read from worker records in numeric positions are embedded with the
three-way type `JNum` (absent / present-but-not-coercible / present value),
matching the router's `game.get(...)` plus `int(...)` handling.
-/

deriving instance DecidableEq for Except

namespace ChatFeedManager

/-! ## Python string primitives -/

/-- ASCII whitespace, as used by Python `str.split(None)` and `str.strip()`
(restricted to the ASCII range; the repository only feeds ASCII command text
through these paths). -/
def pyIsSpace (c : Char) : Bool :=
  c = ' ' || c = '\t' || c = '\n' || c = '\x0b' || c = '\x0c' || c = '\r'

/-- Python `str.strip()` (ASCII whitespace model). -/
def pyStrip (s : String) : String :=
  ⟨((s.data.dropWhile pyIsSpace).reverse.dropWhile pyIsSpace).reverse⟩

/-- Python `str.lower()` (ASCII model, matching `Char.toLower`). -/
def pyLower (s : String) : String :=
  ⟨s.data.map Char.toLower⟩

/-- Python `str.upper()` (ASCII model). -/
def pyUpper (s : String) : String :=
  ⟨s.data.map Char.toUpper⟩

/-- Python `s or default` for strings: the default replaces the empty string. -/
def pyOrStr (s default : String) : String :=
  if s = "" then default else s

/-- Digit run of a Python decimal integer literal, after the first digit:
digits, optionally separated by single underscores (`int("1_000") = 1000`,
while `"1__0"`, `"1_"` fail). -/
def pyDigitsRest : List Char → Nat → Option Nat
  | [], acc => some acc
  | '_' :: d :: rest, acc =>
      if d.isDigit then pyDigitsRest rest (acc * 10 + (d.toNat - '0'.toNat)) else none
  | ['_'], _ => none
  | d :: rest, acc =>
      if d.isDigit then pyDigitsRest rest (acc * 10 + (d.toNat - '0'.toNat)) else none

/-- Nonempty digit run starting with a digit (no leading underscore). -/
def pyDigitsStart : List Char → Option Nat
  | [] => none
  | d :: rest => if d.isDigit then pyDigitsRest rest (d.toNat - '0'.toNat) else none

/-- Python `int(s)` on a string: optional surrounding whitespace, optional
sign, ASCII decimal digits with optional single underscores between digits.
`none` models a raised `ValueError`.  (Python additionally accepts non-ASCII
decimal digits; the repository only passes ASCII chat text here.) -/
def pyIntOfString (s : String) : Option Int :=
  match (pyStrip s).data with
  | '+' :: rest => (pyDigitsStart rest).map (fun n => (n : Int))
  | '-' :: rest => (pyDigitsStart rest).map (fun n => -(n : Int))
  | cs => (pyDigitsStart cs).map (fun n => (n : Int))

/-- Python `s.split(None, 1)`: drop leading whitespace; if nothing remains the
result is empty; otherwise the first whitespace-free token, and — if anything
follows the whitespace run after it — the verbatim remainder. -/
def pySplitNoneOnce (s : String) : List String :=
  let cs := s.data.dropWhile pyIsSpace
  if cs = [] then []
  else
    let tok := cs.takeWhile (fun c => !(pyIsSpace c))
    let rest := (cs.dropWhile (fun c => !(pyIsSpace c))).dropWhile pyIsSpace
    if rest = [] then [⟨tok⟩] else [⟨tok⟩, ⟨rest⟩]

/-- Python `s.split(sep)` for a one-character separator. -/
def splitOnCharAux (sep : Char) : List Char → List Char → List String
  | [], acc => [⟨acc.reverse⟩]
  | x :: xs, acc =>
      if x = sep then ⟨acc.reverse⟩ :: splitOnCharAux sep xs []
      else splitOnCharAux sep xs (x :: acc)

/-- Python `s.split(sep)` for a one-character separator. -/
def splitOnChar (sep : Char) (s : String) : List String :=
  splitOnCharAux sep s.data []

/-- Python `s.split()` (split on whitespace runs, no empty parts). -/
def pySplitWsAux : List Char → List Char → List String
  | [], acc => if acc = [] then [] else [⟨acc.reverse⟩]
  | x :: xs, acc =>
      if pyIsSpace x then
        (if acc = [] then pySplitWsAux xs [] else ⟨acc.reverse⟩ :: pySplitWsAux xs [])
      else pySplitWsAux xs (x :: acc)

/-- Python `s.split()` (split on whitespace runs, no empty parts). -/
def pySplitWs (s : String) : List String :=
  pySplitWsAux s.data []

/-! ## Tiers (`router_bank.py`, `TIER_ORDER` / `TIER_RANK` / `tier_ge`) -/

/-- `TIER_RANK.get(t, 0)`: rank of a tier name, unknown names rank 0. -/
def tierRank (t : String) : Int :=
  if t = "EVERYONE" then 0
  else if t = "SUB" then 1
  else if t = "VIP" then 2
  else if t = "MOD" then 3
  else if t = "BROADCASTER" then 4
  else 0

/-- `tier_ge(a, b)`. -/
def tier_ge (a b : String) : Bool :=
  tierRank b ≤ tierRank a

/-! ## Slots configuration and payout evaluation (`router_bank.py`) -/

/-- One entry of the normalized `payouts` list produced by
`_normalize_slots_cfg` (name, three-symbol pattern, integer multiplier,
result code). -/
structure PayoutRule where
  name : String
  pattern : List String
  mult : Int
  result_code : String
deriving DecidableEq

/-- The normalized slots configuration (`_normalize_slots_cfg` output:
`reels` string list, normalized `payouts`, integer `default_loss_mult`). -/
structure SlotsCfg where
  reels : List String
  payouts : List PayoutRule
  default_loss_mult : Int
deriving DecidableEq

/-- `DEFAULT_RESULTCODE_MULT.get(code, 0)` — source dictionary lookup. -/
def defaultResultcodeMult (code : String) : Option Int :=
  if code = "SLOTS_777" then some 25
  else if code = "SLOTS_TRIPLE_BAR" then some 15
  else if code = "SLOTS_TRIPLE_CHERRY" then some 8
  else if code = "SLOTS_DOUBLE_7" then some 3
  else if code = "SLOTS_DOUBLE_CHERRY" then some 2
  else if code = "SLOTS_SINGLE_CHERRY" then some 1
  else if code = "SLOTS_LOSS" then some 0
  else none

/-- `DEFAULT_RESULTCODE_SYMBOLS.get(code, ["?","?","?"])`. -/
def defaultResultcodeSymbols (code : String) : Option (List String) :=
  if code = "SLOTS_777" then some ["7", "7", "7"]
  else if code = "SLOTS_TRIPLE_BAR" then some ["BAR", "BAR", "BAR"]
  else if code = "SLOTS_TRIPLE_CHERRY" then some ["🍒", "🍒", "🍒"]
  else if code = "SLOTS_DOUBLE_7" then some ["7", "7", "*"]
  else if code = "SLOTS_DOUBLE_CHERRY" then some ["🍒", "🍒", "*"]
  else if code = "SLOTS_SINGLE_CHERRY" then some ["🍒", "*", "*"]
  else if code = "SLOTS_LOSS" then some ["?", "?", "?"]
  else none

/-- `_slots_pattern_match(pattern, symbols)`: equal length, and each pattern
entry either a wildcard (`*`, `ANY`, `any`, empty) or equal to the symbol. -/
def slotsPatternMatch (pattern symbols : List String) : Bool :=
  pattern.length = symbols.length &&
    (List.zip pattern symbols).all
      (fun ps => ps.1 = "*" || ps.1 = "ANY" || ps.1 = "any" || ps.1 = "" || ps.1 = ps.2)

/-- `eval_slots(symbols, result_code, cfg)`: returns
`(mult, rule_name, resolved_result_code, resolved_symbols)`. -/
def evalSlots (symbols : List String) (result_code : String) (cfg : SlotsCfg) :
    Int × String × String × List String :=
  let syms := symbols.take 3
  if (syms.isEmpty || syms.length ≠ 3) && result_code ≠ "" then
    let mult := (defaultResultcodeMult result_code).getD 0
    let mapped := (defaultResultcodeSymbols result_code).getD ["?", "?", "?"]
    (mult, result_code, result_code, mapped)
  else
    let syms := syms ++ List.replicate (3 - syms.length) "?"
    match cfg.payouts.find? (fun r => slotsPatternMatch r.pattern syms) with
    | some r =>
        let name := pyOrStr (pyStrip r.name) "WIN"
        let rc := pyOrStr (pyStrip r.result_code) result_code
        (r.mult, name, rc, syms)
    | none =>
        match defaultResultcodeMult result_code with
        | some m =>
            if result_code ≠ "" then
              (m, result_code, result_code,
                (defaultResultcodeSymbols result_code).getD ["?", "?", "?"])
            else (cfg.default_loss_mult, "LOSS", pyOrStr result_code "SLOTS_LOSS", syms)
        | none => (cfg.default_loss_mult, "LOSS", pyOrStr result_code "SLOTS_LOSS", syms)

/-- The possible shapes of the JSON value feeding `_coerce_symbols`:
a list (coerced to strings), a string, or anything else (absent/falsy). -/
inductive SymsVal where
  | list (xs : List String)
  | str (s : String)
  | nil
deriving DecidableEq

/-- `_coerce_symbols(v)`. -/
def coerceSymbols : SymsVal → List String
  | .list xs => xs.take 3
  | .str v =>
      let s := pyStrip v
      if s.data.contains '|' then
        (((splitOnChar '|' s).map pyStrip).filter (fun p => p ≠ "")).take 3
      else if s.data.contains ',' then
        (((splitOnChar ',' s).map pyStrip).filter (fun p => p ≠ "")).take 3
      else (pySplitWs s).take 3
  | .nil => []

/-! ## Gamble FIFO queue (`GambleQueue` in `router_bank.py`; the copy in
`gamble_queue.py` has the same arithmetic) -/

/-- A queued gamble task (`GambleTask` dataclass).  `slots_cfg` is the
configuration snapshot captured at enqueue time (stored normalized, since the
router only ever snapshots its own normalized `self.slots_cfg`). -/
structure GambleTask where
  task_id : String
  action : String
  bet : Int
  platform : String
  reply_name : String
  user_key : String
  created_ts : Int
  available_points : Int
  slots_cfg : Option SlotsCfg := none
  command : String := "slots"
deriving DecidableEq

/-- The gamble queue file contents: `{"queue": [...], "active": ..., "busy_until_ts": ...}`. -/
structure QueueState where
  queue : List GambleTask
  active : Option GambleTask
  busy_until_ts : Int
deriving DecidableEq

/-- `GambleQueue.reserved_points_for_user`: sum of bets of the user's queued
tasks, plus the active task's bet when it belongs to the user. -/
def reservedPointsForUser (gq : QueueState) (user_key : String) : Int :=
  (gq.queue.filter (fun t => t.user_key = user_key)).foldl (fun acc t => acc + t.bet) 0 +
    (match gq.active with
     | some a => if a.user_key = user_key then a.bet else 0
     | none => 0)

/-- `GambleQueue.enqueue`: append the task; the returned position is the new
queue length. -/
def enqueueTask (gq : QueueState) (t : GambleTask) : QueueState × Int :=
  let q := gq.queue ++ [t]
  ({ gq with queue := q }, (q.length : Int))

/-- `GambleQueue.active_task_id`. -/
def activeTaskId (gq : QueueState) : Option String :=
  gq.active.map (fun a => a.task_id)

/-- `GambleQueue.can_dispatch(now_ts)`. -/
def canDispatch (gq : QueueState) (now : Int) : Bool :=
  if gq.active.isSome then false
  else if now < gq.busy_until_ts then false
  else gq.queue.length > 0

/-- `GambleQueue.pop_next_for_dispatch`. -/
def popNextForDispatch (gq : QueueState) : Option GambleTask × QueueState :=
  match gq.queue with
  | [] => (none, gq)
  | t :: ts => (some t, { gq with queue := ts, active := some t })

/-- `GambleQueue.mark_done(blocking_ms)` at time `now`
(`int(time.time())` in the source).  Note the source computes
`max(0, int(blocking_ms)) // 1000`, a floor division. -/
def markDone (gq : QueueState) (blocking_ms : Int) (now : Int) : QueueState :=
  if blocking_ms ≠ 0 && blocking_ms > 0 then
    { gq with active := none, busy_until_ts := now + (max 0 blocking_ms) / 1000 }
  else
    { gq with active := none, busy_until_ts := now }

/-! ## Router user state (`RouterBank._get_user_rec` / points / cooldowns) -/

/-- A user record (the dict populated by `_get_user_rec`'s `setdefault`s). -/
structure UserRec where
  points : Int
  last_seen_ts : Int
  last_award_ts : Int
  cooldowns : List (String × Int)
deriving DecidableEq

/-- The record `_get_user_rec` creates for an unknown user at time `now`
(`points 0`, `last_seen_ts 0`, `last_award_ts now`, empty cooldowns). -/
def defaultUserRec (now : Int) : UserRec :=
  { points := 0, last_seen_ts := 0, last_award_ts := now, cooldowns := [] }

/-- `self.user_state`: a dict keyed by user key, embedded as an association
list (keys are unique in the Python dict; lookups take the first match). -/
abbrev UserMap : Type := List (String × UserRec)

/-- The `setdefault` side effect of `_get_user_rec`: insert the default
record when the key is absent. -/
def ensureUser (us : UserMap) (k : String) (now : Int) : UserMap :=
  match List.lookup k us with
  | some _ => us
  | none => us ++ [(k, defaultUserRec now)]

/-- `RouterBank.get_points` (read-only part; the `setdefault` side effect is
taken by applying `ensureUser` first, as each handler does below). -/
def getPoints (us : UserMap) (k : String) : Int :=
  ((List.lookup k us).getD (defaultUserRec 0)).points

/-- Update the record stored at key `k` (the key is present after
`ensureUser`). -/
def updateUser (us : UserMap) (k : String) (f : UserRec → UserRec) : UserMap :=
  us.map (fun p => if p.1 = k then (p.1, f p.2) else p)

/-- `RouterBank.set_points`: clamp at 0 and store. -/
def setPoints (us : UserMap) (k : String) (pts : Int) (now : Int) : UserMap :=
  updateUser (ensureUser us k now) k (fun r => { r with points := max 0 pts })

/-- `RouterBank.add_points`. -/
def addPoints (us : UserMap) (k : String) (delta : Int) (now : Int) : UserMap :=
  setPoints us k (getPoints (ensureUser us k now) k + delta) now

/-- Store into the `cooldowns` dict of a record. -/
def setAssoc (l : List (String × Int)) (k : String) (v : Int) : List (String × Int) :=
  if l.any (fun p => p.1 = k) then l.map (fun p => if p.1 = k then (k, v) else p)
  else l ++ [(k, v)]

/-- `RouterBank._set_cooldown`. -/
def setCooldown (us : UserMap) (k cmd : String) (now : Int) : UserMap :=
  updateUser (ensureUser us k now) k
    (fun r => { r with cooldowns := setAssoc r.cooldowns cmd now })

/-- `cds.get(cmd_name, 0)` over a user's cooldown dict. -/
def cooldownLast (r : UserRec) (cmd : String) : Int :=
  ((List.lookup cmd r.cooldowns).getD 0)

/-- `RouterBank._cooldown_ok`. -/
def cooldownOk (us : UserMap) (k cmd : String) (cooldown_seconds : Int)
    (bypass_tier user_tier : String) (now : Int) : Bool :=
  if cooldown_seconds ≤ 0 then true
  else if bypass_tier ≠ "" && tier_ge user_tier bypass_tier then true
  else
    cooldown_seconds ≤ now - cooldownLast (((ensureUser us k now).lookup k).getD (defaultUserRec now)) cmd

/-- `RouterBank._cooldown_remaining`. -/
def cooldownRemaining (us : UserMap) (k cmd : String) (cooldown_seconds : Int)
    (now : Int) : Int :=
  if cooldown_seconds ≤ 0 then 0
  else
    max 0 (cooldown_seconds -
      (now - cooldownLast (((ensureUser us k now).lookup k).getD (defaultUserRec now)) cmd))

/-! ## Command parsing (`RouterBank.parse_command`, `RouterBank._parse_bet`) -/

/-- `RouterBank.parse_command(text)`.  `Except.error ()` models the
`IndexError` raised by `parts[0]` when `raw.split(None, 1)` is empty, which
happens exactly when the text after `!` is nonempty whitespace. -/
def parse_command (text : String) : Except Unit (Option (String × String)) :=
  match text.data with
  | '!' :: rawCs =>
      if rawCs = [] then Except.ok none
      else
        match pySplitNoneOnce ⟨rawCs⟩ with
        | [] => Except.error ()
        | [c] => Except.ok (some (pyLower (pyStrip c), ""))
        | c :: rest :: _ => Except.ok (some (pyLower (pyStrip c), rest))
  | _ => Except.ok none

/-- The router's event loop over the text of a batch of chat events: each is
parsed in order; a raised exception aborts the remaining events of the batch
(the byte offset was already advanced in `poll_events`, so they are lost). -/
def parseBatch (texts : List String) : Except Unit (List (Option (String × String))) :=
  texts.foldlM (fun acc t => (parse_command t).map (fun r => acc ++ [r])) []

/-- `RouterBank._parse_bet(args, spendable)`. -/
def parseBet (args : String) (spendable : Int) : Int :=
  let a := pyLower (pyStrip args)
  if a = "" then (if spendable > 0 then min 50 spendable else 0)
  else if a = "max" || a = "all" then spendable
  else
    match pyIntOfString a with
    | some n => max 0 n
    | none => 0

/-! ## Router records and command definitions -/

/-- A command definition as normalized by `_index_cmds` (`command`, `bot`,
`action` already stripped and lowercased; numeric fields already through
`int(... or 0)`). -/
structure CmdDef where
  command : String
  bot : String
  action : String
  min_tier : String
  cooldown_seconds : Int
  cooldown_bypass_tier : String
  cost_points : Int
deriving DecidableEq

/-- A reply-intent record appended to `replies.outbox.jsonl` by `emit_reply`. -/
structure ReplyIntent where
  ts : Int
  platform : String
  reply_name : String
  text : String
  bot : String
deriving DecidableEq

/-- A points-ledger record appended by `record_ledger`. -/
structure LedgerRec where
  ts : Int
  platform : String
  user_key : String
  command : String
  bot : String
  delta : Int
  before : Int
  after : Int
  note : String
deriving DecidableEq

/-- A generic task record appended to a worker inbox by `dispatch_to_worker`. -/
structure WTask where
  task_id : String
  ts : Int
  bot : String
  action : String
  command : String
  args : String
  platform : String
  reply_name : String
  user_key : String
  user_tier : String
deriving DecidableEq

/-- An inflight entry (`self.inflight[task_id]`). -/
structure InflightMeta where
  bot : String
  platform : String
  reply_name : String
  user_key : String
  created_ts : Int
deriving DecidableEq

/-- An overlay record appended by `emit_overlay` (payload kept opaque). -/
structure OverlayEvOut where
  ts : Int
  overlay : String
  event : String
  event_id : String
  payload : String
deriving DecidableEq

/-- A JSON value sitting in a numeric position of a worker `game` object:
absent (or JSON `null`, which the router treats the same way on these paths),
present but failing `int(...)`, or present with integer value `n`. -/
inductive JNum where
  | absent
  | bad
  | val (n : Int)
deriving DecidableEq

/-! ## Gamble enqueue (`RouterBank.enqueue_gamble`) -/

/-- The observable effect of `enqueue_gamble`. -/
structure EnqOut where
  gq : QueueState
  replies : List ReplyIntent
  ledger : List LedgerRec
  enqueued : Option GambleTask
deriving DecidableEq

/-- `Receipt: !cmd cost 0 pts. New total: P pts. Available to wager: S pts.` -/
def enqReceiptText (cmd_name : String) (points spendable : Int) : String :=
  "Receipt: !" ++ cmd_name ++ " cost 0 pts. New total: " ++ toString points ++
    " pts. Available to wager: " ++ toString spendable ++ " pts."

/-- `RouterBank.enqueue_gamble(cmd_def, platform, reply_name, user_key, args)`.
`tid` stands for the generated `'g_' + uuid4` task id and `now` for
`int(time.time())`; `cfg` is the router's current `self.slots_cfg`.
The user map is threaded because `get_points` inserts a default record. -/
def enqueueGamble (cdef : CmdDef) (platform reply_name user_key args : String)
    (us : UserMap) (gq : QueueState) (cfg : SlotsCfg) (tid : String) (now : Int) :
    UserMap × EnqOut :=
  let us0 := ensureUser us user_key now
  let points := getPoints us0 user_key
  let reserved := reservedPointsForUser gq user_key
  let spendable := max 0 (points - reserved)
  let cmd_name := pyOrStr cdef.command "slots"
  let bet := parseBet args spendable
  if bet ≤ 0 then
    (us0,
      { gq := gq,
        replies :=
          [{ ts := now, platform := platform, reply_name := reply_name,
             text := "You have " ++ toString spendable ++ " points available to wager.",
             bot := "gamble" },
           { ts := now, platform := platform, reply_name := reply_name,
             text := enqReceiptText cmd_name points spendable, bot := "gamble" }],
        ledger := [], enqueued := none })
  else if bet > spendable then
    (us0,
      { gq := gq,
        replies :=
          [{ ts := now, platform := platform, reply_name := reply_name,
             text := "Max wager is " ++ toString spendable ++ ".", bot := "gamble" },
           { ts := now, platform := platform, reply_name := reply_name,
             text := enqReceiptText cmd_name points spendable, bot := "gamble" }],
        ledger := [], enqueued := none })
  else
    let task : GambleTask :=
      { task_id := tid, action := pyOrStr cdef.action "slots", bet := bet,
        platform := platform, reply_name := reply_name, user_key := user_key,
        created_ts := now, available_points := spendable, slots_cfg := some cfg,
        command := cmd_name }
    let (gq1, pos) := enqueueTask gq task
    let available_after := max 0 (points - (reserved + bet))
    (us0,
      { gq := gq1,
        replies :=
          [{ ts := now, platform := platform, reply_name := reply_name,
             text := "You’re queued (# " ++ toString pos ++ "). Wager: " ++
               toString bet ++ ".",
             bot := "gamble" },
           { ts := now, platform := platform, reply_name := reply_name,
             text := "Receipt: !" ++ cmd_name ++ " cost " ++ toString bet ++
               " pts (reserved wager). New total: " ++ toString points ++
               " pts. Available to wager: " ++ toString available_after ++ " pts.",
             bot := "gamble" }],
        ledger :=
          [{ ts := now, platform := platform, user_key := user_key,
             command := cmd_name, bot := "gamble", delta := 0, before := points,
             after := points,
             note := "wager_reserved=" ++ toString bet ++ "; available_after=" ++
               toString available_after }],
        enqueued := some task })

/-! ## Bot command handling (`RouterBank.handle_bot_command`,
`RouterBank.dispatch_to_worker`) -/

/-- The observable effect of `handle_bot_command`. -/
structure BotCmdOut where
  us : UserMap
  gq : QueueState
  inflight : List (String × InflightMeta)
  replies : List ReplyIntent
  ledger : List LedgerRec
  tasksOut : List WTask
  gambleEnqueued : Option GambleTask
deriving DecidableEq

/-- `'pt' if int(n) == 1 else 'pts'` (`RouterBank._plural_pts`). -/
def pluralPts (n : Int) : String :=
  if n = 1 then "pt" else "pts"

/-- The receipt line built by `emit_command_receipt` with an empty note. -/
def commandReceiptText (cmd_name : String) (cost new_total : Int) : String :=
  "Receipt: !" ++ cmd_name ++ " cost " ++ toString cost ++ " " ++ pluralPts cost ++
    ". New total: " ++ toString new_total ++ " " ++ pluralPts new_total ++ "."

/-- `str(cdef.get("bot", "") or "").strip().lower() or "manager"`. -/
def botIdOf (cdef : CmdDef) : String :=
  pyOrStr (pyLower (pyStrip cdef.bot)) "manager"

/-- `str(cdef.get("min_tier", "EVERYONE") or "EVERYONE").upper()`. -/
def minTierOf (cdef : CmdDef) : String :=
  pyUpper (pyOrStr cdef.min_tier "EVERYONE")

/-- The insufficient-funds reply of `handle_bot_command`. -/
def insufficientFundsText (cmd_name : String) (cost pts_before : Int) : String :=
  "You need " ++ toString cost ++ " points for that command. You have " ++
    toString pts_before ++ "." ++ " Receipt: !" ++ cmd_name ++ " cost " ++
    toString cost ++ " pts (not charged). Total: " ++ toString pts_before ++ " pts."

/-- `RouterBank.handle_bot_command`.  `bots` is the set of configured bot ids
(`self.bots`); `tid` stands for the generated uuid task id; `now` for
`int(time.time())`. -/
def handleBotCommand (cdef : CmdDef) (platform reply_name user_key user_tier args : String)
    (bots : List String) (us : UserMap) (gq : QueueState)
    (inflight : List (String × InflightMeta)) (cfg : SlotsCfg) (tid : String)
    (now : Int) : BotCmdOut :=
  if !(tier_ge user_tier (minTierOf cdef)) then
    { us := us, gq := gq, inflight := inflight, replies := [], ledger := [],
      tasksOut := [], gambleEnqueued := none }
  else
    let cmd_name := cdef.command
    let bot_id := botIdOf cdef
    let cd := cdef.cooldown_seconds
    let bypass := pyUpper cdef.cooldown_bypass_tier
    let us0 := ensureUser us user_key now
    if !(cooldownOk us0 user_key cmd_name cd bypass user_tier now) then
      let rem := cooldownRemaining us0 user_key cmd_name cd now
      if rem > 0 then
        let pts_now := getPoints us0 user_key
        let cost_static := if bot_id = "gamble" then 0 else cdef.cost_points
        { us := us0, gq := gq, inflight := inflight,
          replies :=
            [{ ts := now, platform := platform, reply_name := reply_name,
               text := "!" ++ cmd_name ++ " is on cooldown for " ++ toString rem ++ "s.",
               bot := bot_id },
             { ts := now, platform := platform, reply_name := reply_name,
               text := "Receipt: !" ++ cmd_name ++ " cost " ++ toString cost_static ++
                 " pts (not charged - cooldown). Total: " ++ toString pts_now ++ " pts.",
               bot := bot_id }],
          ledger := [], tasksOut := [], gambleEnqueued := none }
      else
        { us := us0, gq := gq, inflight := inflight, replies := [], ledger := [],
          tasksOut := [], gambleEnqueued := none }
    else
      let us1 := setCooldown us0 user_key cmd_name now
      if bot_id = "gamble" then
        let r := enqueueGamble cdef platform reply_name user_key args us1 gq cfg tid now
        { us := r.1, gq := r.2.gq, inflight := inflight, replies := r.2.replies,
          ledger := r.2.ledger, tasksOut := [], gambleEnqueued := r.2.enqueued }
      else
        let cost := cdef.cost_points
        let pts_before := getPoints us1 user_key
        if cost > 0 && pts_before < cost then
          { us := us1, gq := gq, inflight := inflight,
            replies :=
              [{ ts := now, platform := platform, reply_name := reply_name,
                 text := insufficientFundsText cmd_name cost pts_before,
                 bot := bot_id }],
            ledger := [], tasksOut := [], gambleEnqueued := none }
        else
          let pts_after := if cost > 0 then max 0 (pts_before - cost) else pts_before
          let us2 := if cost > 0 then setPoints us1 user_key pts_after now else us1
          let costLedger : List LedgerRec :=
            if cost > 0 then
              [{ ts := now, platform := platform, user_key := user_key,
                 command := cmd_name, bot := bot_id, delta := -cost,
                 before := pts_before, after := pts_after, note := "command_cost" }]
            else []
          let receipt : ReplyIntent :=
            { ts := now, platform := platform, reply_name := reply_name,
              text := commandReceiptText cmd_name cost pts_after, bot := bot_id }
          if bots.contains bot_id then
            { us := us2, gq := gq,
              inflight := inflight ++
                [(tid, { bot := bot_id, platform := platform, reply_name := reply_name,
                         user_key := user_key, created_ts := now })],
              replies := [receipt], ledger := costLedger,
              tasksOut :=
                [{ task_id := tid, ts := now, bot := bot_id, action := cdef.action,
                   command := cdef.command, args := args, platform := platform,
                   reply_name := reply_name, user_key := user_key,
                   user_tier := user_tier }],
              gambleEnqueued := none }
          else
            { us := us2, gq := gq, inflight := inflight, replies := [receipt],
              ledger := costLedger, tasksOut := [], gambleEnqueued := none }

/-! ## Gamble reply settlement (`RouterBank.handle_gamble_reply`) -/

/-- The `game` object of a gamble worker reply.  `symbols_chain` is the first
truthy of the `symbols` / `result` / `spin` / `reels` fields (a Python `or`
chain; `.nil` when all are absent or falsy); `s123` holds the `s1`,`s2`,`s3`
fields; `mult_chain` the `multiplier` / `mult` chain; `payout_chain` the
`payout` / `payout_points` / `win_points` chain. -/
structure GameRec where
  bet : JNum
  result_code : String
  symbols_chain : SymsVal
  s123 : List (Option String)
  mult_chain : JNum
  rule_name : String
  rule : String
  payout_chain : JNum
deriving DecidableEq

/-- `rec.get("game") or {}` when the reply carries no game object. -/
def emptyGame : GameRec :=
  { bet := JNum.absent, result_code := "", symbols_chain := SymsVal.nil,
    s123 := [none, none, none], mult_chain := JNum.absent, rule_name := "",
    rule := "", payout_chain := JNum.absent }

/-- An overlay event carried inside a worker reply (`rec["overlay_events"]`). -/
structure OverlayEvIn where
  overlay : String
  event : String
  payload : String
deriving DecidableEq

/-- A worker reply record (`{type:"reply", task_id, messages, game,
overlay_events, blocking_ms}`). -/
structure WorkerReplyRec where
  rtype : String
  task_id : String
  messages : List String
  game : GameRec
  overlay_events : List OverlayEvIn
  blocking_ms : Int
deriving DecidableEq

/-- `int(game.get("bet", active.get("bet", 0)) or 0)`: the worker-supplied bet
when the `bet` key is present, otherwise the active task's bet; a present
non-coercible value raises (`Except.error`). -/
def effBet (g : GameRec) (activeBet : Int) : Except Unit Int :=
  match g.bet with
  | JNum.val n => Except.ok n
  | JNum.bad => Except.error ()
  | JNum.absent => Except.ok activeBet

/-- The symbol extraction of `handle_gamble_reply`: `_coerce_symbols` over the
chained fields, falling back to the `s1`/`s2`/`s3` fields when empty. -/
def gambleSymbols (g : GameRec) : List String :=
  let symbols := coerceSymbols g.symbols_chain
  if symbols.isEmpty && g.s123.any Option.isSome then
    (g.s123.filterMap id).take 3
  else symbols

/-- The outcome resolution of `handle_gamble_reply`: a worker-supplied numeric
multiplier wins; otherwise `eval_slots` runs.  Returns
`(mult, rule_name, rc, syms)`. -/
def gambleOutcome (g : GameRec) (cfg : SlotsCfg) : Int × String × String × List String :=
  let result_code := g.result_code
  let symbols := gambleSymbols g
  match g.mult_chain with
  | JNum.val m =>
      let rule_name := pyOrStr g.rule_name (pyOrStr g.rule (pyOrStr result_code "WIN"))
      let rc := pyOrStr result_code "SLOTS_CUSTOM"
      let syms :=
        if symbols.isEmpty then (defaultResultcodeSymbols result_code).getD ["?", "?", "?"]
        else symbols
      (m, rule_name, rc, syms)
  | _ => evalSlots symbols result_code cfg

/-- The gross payout before clamping: worker-supplied when present and
coercible, else `bet * mult` (also on coercion failure). -/
def gamblePayoutRaw (g : GameRec) (bet mult : Int) : Int :=
  match g.payout_chain with
  | JNum.val v => v
  | JNum.bad => bet * mult
  | JNum.absent => bet * mult

/-- `" | ".join(syms[:3])` with the `"? | ? | ?"` fallback. -/
def symDisp (syms : List String) : String :=
  pyOrStr (String.intercalate " | " (syms.take 3)) "? | ? | ?"

/-- The single result line emitted by `handle_gamble_reply` (win or lose line
plus the appended receipt). -/
def gambleResultLine (disp : String) (cmd_name : String)
    (mult payout net bet pts_after : Int) : String :=
  (if mult > 0 && payout > 0 then
    "🎰 Slots: [" ++ disp ++ "] — WIN x" ++ toString mult ++ "! Won " ++
      toString payout ++ " pts (net +" ++ toString net ++ " pts). Total: " ++
      toString pts_after ++ " pts."
  else
    "🎰 Slots: [" ++ disp ++ "] — You lose. Lost " ++ toString bet ++
      " pts. Total: " ++ toString pts_after ++ " pts.") ++
  " Receipt: !" ++ cmd_name ++ " cost " ++ toString bet ++ " pts. New total: " ++
    toString pts_after ++ " pts."

/-- The ledger note of the settlement. -/
def gambleLedgerNote (rule_name rc disp : String) (bet mult payout net : Int) : String :=
  "slots; rule=" ++ rule_name ++ "; result_code=" ++ rc ++ "; symbols=" ++ disp ++
    "; bet=" ++ toString bet ++ "; mult=" ++ toString mult ++ "; payout=" ++
    toString payout ++ "; net=" ++ toString net

/-- The observable effect of a worker-reply intake step. -/
structure SettleOut where
  us : UserMap
  gq : QueueState
  inflight : List (String × InflightMeta)
  replies : List ReplyIntent
  ledger : List LedgerRec
  overlay : List OverlayEvOut
  deadletter : List (String × WorkerReplyRec)
deriving DecidableEq

/-- The no-effect result (early returns). -/
def settleUnchanged (us : UserMap) (gq : QueueState)
    (inflight : List (String × InflightMeta)) : SettleOut :=
  { us := us, gq := gq, inflight := inflight, replies := [], ledger := [],
    overlay := [], deadletter := [] }

/-- `RouterBank.handle_gamble_reply(rec)`.  `liveCfg` is the router's current
(hot-reloaded) `self.slots_cfg`; `now` stands for `int(time.time())`.
`Except.error ()` models the `ValueError` raised by `int(...)` on a present
but non-coercible worker bet (raised before any state is written). -/
def handleGambleReply (rec : WorkerReplyRec) (us : UserMap) (gq : QueueState)
    (inflight : List (String × InflightMeta)) (liveCfg : SlotsCfg) (now : Int) :
    Except Unit SettleOut :=
  match gq.active with
  | none => Except.ok (settleUnchanged us gq inflight)
  | some active =>
      if active.task_id = "" || rec.task_id ≠ active.task_id then
        Except.ok (settleUnchanged us gq inflight)
      else
        let user_key := active.user_key
        let platform := active.platform
        let reply_name := pyOrStr active.reply_name "User"
        let cmd_name0 := pyOrStr active.command "slots"
        let cmd_name := if pyLower cmd_name0 = "gamble" then "slots" else cmd_name0
        let cfg := (active.slots_cfg).getD liveCfg
        let g := rec.game
        match effBet g active.bet with
        | Except.error _ => Except.error ()
        | Except.ok bet =>
            let oc := gambleOutcome g cfg
            let mult := oc.1
            let rule_name := oc.2.1
            let rc := oc.2.2.1
            let syms := oc.2.2.2
            let payout := max 0 (gamblePayoutRaw g bet mult)
            let us0 := ensureUser us user_key now
            let pts_before := getPoints us0 user_key
            let net := payout - bet
            let pts_after := max 0 (pts_before + net)
            let us1 := setPoints us0 user_key pts_after now
            let disp := symDisp syms
            let line := gambleResultLine disp cmd_name mult payout net bet pts_after
            Except.ok
              { us := us1,
                gq := markDone gq rec.blocking_ms now,
                inflight := inflight,
                replies :=
                  [{ ts := now, platform := platform, reply_name := reply_name,
                     text := line, bot := "gamble" }],
                ledger :=
                  [{ ts := now, platform := platform, user_key := user_key,
                     command := cmd_name, bot := "gamble", delta := net,
                     before := pts_before, after := pts_after,
                     note := gambleLedgerNote rule_name rc disp bet mult payout net }],
                overlay :=
                  rec.overlay_events.map (fun ev =>
                    { ts := now, overlay := pyOrStr ev.overlay "casino",
                      event := ev.event, event_id := "evt_" ++ active.task_id,
                      payload := ev.payload }),
                deadletter := [] }

/-- `RouterBank.handle_worker_reply(bot_id, rec)`: non-`reply` records are
ignored; the gamble bot routes to `handle_gamble_reply`; otherwise the reply
is matched against the inflight map, emitting up to three messages and
popping the entry, and unmatched replies are appended to the bot's
deadletter file as `orphan_reply` (`deadletter` pairs the bot id with the
dead-lettered record). -/
def handleWorkerReply (bot_id : String) (rec : WorkerReplyRec) (us : UserMap)
    (gq : QueueState) (inflight : List (String × InflightMeta))
    (liveCfg : SlotsCfg) (now : Int) : Except Unit SettleOut :=
  if rec.rtype ≠ "reply" then Except.ok (settleUnchanged us gq inflight)
  else if bot_id = "gamble" then handleGambleReply rec us gq inflight liveCfg now
  else
    match List.lookup rec.task_id inflight with
    | none =>
        Except.ok
          { settleUnchanged us gq inflight with deadletter := [(bot_id, rec)] }
    | some meta =>
        Except.ok
          { us := us, gq := gq,
            inflight := inflight.filter (fun p => p.1 ≠ rec.task_id),
            replies :=
              (rec.messages.take 3).map (fun m =>
                { ts := now, platform := meta.platform,
                  reply_name := meta.reply_name, text := m, bot := bot_id }),
            ledger := [], overlay := [], deadletter := [] }

/-! ## Gamble dispatch (`RouterBank.maybe_dispatch_gamble`) -/

/-- `RouterBank.maybe_dispatch_gamble`: `hasGambleBot` is whether
`"gamble" in self.bots`; returns the new queue state and the records appended
to the gamble worker's inbox this tick. -/
def maybeDispatchGamble (hasGambleBot : Bool) (gq : QueueState) (now : Int) :
    QueueState × List GambleTask :=
  if !hasGambleBot then (gq, [])
  else if !(canDispatch gq now) then (gq, [])
  else
    match popNextForDispatch gq with
    | (none, gq1) => (gq1, [])
    | (some t, gq1) => (gq1, [t])

/-! ## Periodic earning tick (`RouterBank.award_active_points_tick`) -/

/-- The per-user body of `award_active_points_tick` (the surrounding 5-second
rate limiter only decides whether the body runs at all). -/
def awardTickRec (now window ppm : Int) (r : UserRec) : UserRec :=
  if now - r.last_seen_ts > window then r
  else if now - r.last_award_ts < 60 then r
  else if (now - r.last_award_ts) / 60 * ppm > 0 then
    { r with points := max 0 (r.points + (now - r.last_award_ts) / 60 * ppm),
             last_award_ts := r.last_award_ts + (now - r.last_award_ts) / 60 * 60 }
  else r

/-- `award_active_points_tick` over the whole user map. -/
def awardActivePointsTick (now window ppm : Int) (us : UserMap) : UserMap :=
  us.map (fun p => (p.1, awardTickRec now window ppm p.2))

/-! ## Emitter reply formatting (`emitter.py`) -/

/-- Python `s[:k]` for an `Int` bound (negative bounds count from the end,
clamping at 0). -/
def pySliceTo (s : String) (k : Int) : String :=
  if 0 ≤ k then ⟨s.data.take k.toNat⟩
  else ⟨s.data.take ((s.length : Int) + k).toNat⟩

/-- `emitter.clamp(s, n)`.  The literal appended by the source is the
three-character sequence U+00E2 U+20AC U+00A6 (a mojibake rendering of the
intended single ellipsis character U+2026). -/
def clamp (s : String) (n : Int) : String :=
  if (s.length : Int) ≤ n then s
  else pySliceTo s (n - 1) ++ "â€¦"

/-- The per-bot reply tag (`bot_prefix(bot, spotify_prefix)` in the source;
`spotifyTag` plays the configured music-bot value). -/
def botTag (bot : String) (spotifyTag : String) : String :=
  let b := pyLower bot
  if b = "spotify" && spotifyTag ≠ "" then spotifyTag
  else if b = "gamble" then "[Slots]"
  else if b = "manager" then "[Manager]"
  else if b ≠ "" then "[" ++ ⟨(b.data.take 1).map Char.toUpper ++ b.data.drop 1⟩ ++ "Bot]"
  else ""

/-- The delivered message formed by the emitter main loop for a reply intent:
`msg = f"@{reply_name} {text}".strip()`, tagged, then clamped to `max_len`. -/
def formReplyMsg (bot spotifyTag reply_name text : String) (max_len : Int) : String :=
  let msg := pyStrip ("@" ++ reply_name ++ " " ++ text)
  let tag := botTag bot spotifyTag
  let msg := if tag ≠ "" then tag ++ " " ++ msg else msg
  clamp msg max_len

/-! ## Reachable router states for the points invariant -/

/-- The router-owned state touched by points-writing operations. -/
structure BankState where
  us : UserMap
  gq : QueueState
  inflight : List (String × InflightMeta)
deriving DecidableEq

/-- The initial router state (empty `user_state.json`, empty queue file). -/
def initBank : BankState :=
  { us := [], gq := { queue := [], active := none, busy_until_ts := 0 },
    inflight := [] }

/-- The operations of the router loop that write the points field:
direct `set_points` / `add_points` (the latter also serves the per-message,
like and share credits of `process_event`), the periodic earning tick,
`handle_bot_command` (command cost deduction and gamble enqueue), and
`handle_gamble_reply` (gamble settlement). -/
inductive BankOp where
  | setPts (k : String) (v : Int) (now : Int)
  | addPts (k : String) (d : Int) (now : Int)
  | earnTick (now window ppm : Int)
  | botCmd (cdef : CmdDef) (platform reply_name user_key user_tier args : String)
      (bots : List String) (cfg : SlotsCfg) (tid : String) (now : Int)
  | gambleReply (rec : WorkerReplyRec) (cfg : SlotsCfg) (now : Int)

/-- One router step.  A raised exception inside `handle_gamble_reply` leaves
the state as it was (the raise happens before any write). -/
def applyBankOp (st : BankState) : BankOp → BankState
  | BankOp.setPts k v now => { st with us := setPoints st.us k v now }
  | BankOp.addPts k d now => { st with us := addPoints st.us k d now }
  | BankOp.earnTick now window ppm =>
      { st with us := awardActivePointsTick now window ppm st.us }
  | BankOp.botCmd cdef platform reply_name user_key user_tier args bots cfg tid now =>
      let o := handleBotCommand cdef platform reply_name user_key user_tier args
        bots st.us st.gq st.inflight cfg tid now
      { us := o.us, gq := o.gq, inflight := o.inflight }
  | BankOp.gambleReply rec cfg now =>
      match handleGambleReply rec st.us st.gq st.inflight cfg now with
      | Except.ok o => { us := o.us, gq := o.gq, inflight := o.inflight }
      | Except.error _ => st

/-- Points are nonnegative in every user record. -/
def PointsInv (us : UserMap) : Prop :=
  ∀ p ∈ us, 0 ≤ p.2.points

/-! ## Concrete fixtures (used to instantiate the general theorems) -/

/-- `DEFAULT_SLOTS_CONFIG` from `router_bank.py` (already in normalized form,
so `_normalize_slots_cfg` maps it to itself). -/
def defaultSlotsConfig : SlotsCfg :=
  { reels := ["🍒", "🍋", "🍇", "🔔", "⭐", "BAR", "7"],
    payouts :=
      [⟨"777", ["7", "7", "7"], 25, "SLOTS_777"⟩,
       ⟨"TRIPLE_BAR", ["BAR", "BAR", "BAR"], 15, "SLOTS_TRIPLE_BAR"⟩,
       ⟨"TRIPLE_CHERRY", ["🍒", "🍒", "🍒"], 8, "SLOTS_TRIPLE_CHERRY"⟩,
       ⟨"DOUBLE_7", ["7", "7", "*"], 3, "SLOTS_DOUBLE_7"⟩,
       ⟨"DOUBLE_CHERRY", ["🍒", "🍒", "*"], 2, "SLOTS_DOUBLE_CHERRY"⟩,
       ⟨"SINGLE_CHERRY", ["🍒", "*", "*"], 1, "SLOTS_SINGLE_CHERRY"⟩],
    default_loss_mult := 0 }

/-- A queued/active sample gamble task. -/
def exTask : GambleTask :=
  { task_id := "g_abc", action := "slots", bet := 50, platform := "tiktok",
    reply_name := "alice", user_key := "tiktok:alice", created_ts := 0,
    available_points := 100, slots_cfg := none, command := "slots" }

/-- An idle queue holding one pending task. -/
def exGqIdle : QueueState := { queue := [exTask], active := none, busy_until_ts := 0 }

/-- A queue whose `exTask` is active. -/
def exGqActive : QueueState := { queue := [], active := some exTask, busy_until_ts := 0 }

/-- A user map with one user holding 100 points. -/
def exUs : UserMap :=
  [("tiktok:alice", { points := 100, last_seen_ts := 0, last_award_ts := 0, cooldowns := [] })]

/-- A winning `game` object carrying a worker payout but no multiplier. -/
def exWinGame : GameRec :=
  { bet := JNum.absent, result_code := "SLOTS_777",
    symbols_chain := SymsVal.list ["7", "7", "7"], s123 := [none, none, none],
    mult_chain := JNum.absent, rule_name := "", rule := "",
    payout_chain := JNum.val 1250 }

/-- The worker reply settling `exTask` with `exWinGame`. -/
def exWinReply : WorkerReplyRec :=
  { rtype := "reply", task_id := "g_abc", messages := [], game := exWinGame,
    overlay_events := [], blocking_ms := 3200 }

/-- A reply whose task id matches nothing. -/
def exOrphanReply : WorkerReplyRec :=
  { rtype := "reply", task_id := "g_zzz", messages := ["hi"], game := emptyGame,
    overlay_events := [], blocking_ms := 0 }

/-- A `game` object overriding bet and multiplier. -/
def exOverrideGame : GameRec :=
  { bet := JNum.val 10, result_code := "", symbols_chain := SymsVal.nil,
    s123 := [none, none, none], mult_chain := JNum.val 3, rule_name := "",
    rule := "", payout_chain := JNum.absent }

/-- The worker reply settling `exTask` with `exOverrideGame`. -/
def exOverrideReply : WorkerReplyRec :=
  { rtype := "reply", task_id := "g_abc", messages := [], game := exOverrideGame,
    overlay_events := [], blocking_ms := 0 }

/-- A non-gamble paid command (`cost_points = 50` on the spotify bot). -/
def exCmdSpot : CmdDef :=
  { command := "song", bot := "spotify", action := "request", min_tier := "",
    cooldown_seconds := 0, cooldown_bypass_tier := "", cost_points := 50 }

/-- A user map with one user holding 30 points. -/
def exUsPoor : UserMap :=
  [("tiktok:bob", { points := 30, last_seen_ts := 0, last_award_ts := 0, cooldowns := [] })]

/-- The gamble command definition (`bot = "gamble"`, dynamic wager). -/
def exCmdSlots : CmdDef :=
  { command := "slots", bot := "gamble", action := "slots", min_tier := "",
    cooldown_seconds := 30, cooldown_bypass_tier := "", cost_points := 0 }

/-! # Theorems -/

/-! ## User-map lemmas -/

theorem lookup_append_none (l1 l2 : UserMap) (j : String)
    (h : List.lookup j l1 = none) : List.lookup j (l1 ++ l2) = List.lookup j l2 := by
  induction l1 with
  | nil => simp
  | cons p tl ih =>
    rw [List.cons_append]
    cases hj : (j == p.1) <;> simp only [List.lookup, hj] at h ⊢
    · exact ih h
    · exact absurd h (by simp)

theorem lookup_append_some (l1 l2 : UserMap) (j : String) (r : UserRec)
    (h : List.lookup j l1 = some r) : List.lookup j (l1 ++ l2) = some r := by
  induction l1 with
  | nil => simp at h
  | cons p tl ih =>
    rw [List.cons_append]
    cases hj : (j == p.1) <;> simp only [List.lookup, hj] at h ⊢
    · exact ih h
    · exact h

theorem lookup_updateUser (us : UserMap) (k j : String) (f : UserRec → UserRec) :
    List.lookup j (updateUser us k f) =
      if j = k then (List.lookup j us).map f else List.lookup j us := by
  induction us with
  | nil => simp [updateUser]
  | cons p tl ih =>
    obtain ⟨a, r⟩ := p
    simp only [updateUser, List.map_cons] at ih ⊢
    by_cases hak : a = k
    · subst hak
      simp only [if_pos rfl]
      by_cases hja : j = a
      · subst hja
        simp [List.lookup]
      · have hb : (j == a) = false := beq_eq_false_iff_ne.mpr hja
        simp [List.lookup, hb, hja, ih]
    · simp only [if_neg hak]
      by_cases hja : j = a
      · subst hja
        simp [List.lookup, hak]
      · have hb : (j == a) = false := beq_eq_false_iff_ne.mpr hja
        simp [List.lookup, hb, ih]

theorem lookup_ensureUser (us : UserMap) (k j : String) (now : Int) :
    List.lookup j (ensureUser us k now) =
      if j = k then some ((List.lookup k us).getD (defaultUserRec now))
      else List.lookup j us := by
  unfold ensureUser
  cases h : List.lookup k us with
  | some r =>
    by_cases hjk : j = k <;> simp [hjk, h]
  | none =>
    by_cases hjk : j = k
    · subst hjk
      rw [lookup_append_none us _ j h, h]
      simp [List.lookup]
    · have hb : (j == k) = false := beq_eq_false_iff_ne.mpr hjk
      rcases h2 : List.lookup j us with _ | r2
      · rw [lookup_append_none us _ j h2]
        simp [List.lookup, hjk, hb]
      · rw [lookup_append_some us _ j r2 h2]
        simp [hjk]

theorem ensureUser_ensureUser (us : UserMap) (k : String) (now now2 : Int) :
    ensureUser (ensureUser us k now) k now2 = ensureUser us k now := by
  unfold ensureUser
  cases h : List.lookup k us with
  | some r => simp [h]
  | none =>
    have h2 : List.lookup k (us ++ [(k, defaultUserRec now)]) = some (defaultUserRec now) := by
      rw [lookup_append_none us _ k h]
      simp [List.lookup]
    simp [h, h2]

theorem getPoints_ensureUser (us : UserMap) (k : String) (now : Int) (j : String) :
    getPoints (ensureUser us k now) j = getPoints us j := by
  unfold getPoints
  rw [lookup_ensureUser]
  by_cases hjk : j = k
  · subst hjk
    cases h : List.lookup j us <;> simp [h, defaultUserRec]
  · simp [hjk]

theorem getPoints_setPoints (us : UserMap) (k : String) (v now : Int) :
    getPoints (setPoints us k v now) k = max 0 v := by
  unfold setPoints getPoints
  rw [lookup_updateUser, if_pos rfl, lookup_ensureUser, if_pos rfl]
  simp

theorem getPoints_setCooldown (us : UserMap) (k cmd : String) (now : Int) (j : String) :
    getPoints (setCooldown us k cmd now) j = getPoints us j := by
  unfold setCooldown getPoints
  rw [lookup_updateUser, lookup_ensureUser]
  by_cases hjk : j = k
  · subst hjk
    cases h : List.lookup j us <;> simp [h, defaultUserRec]
  · simp [hjk]

/-! ## Points-invariant lemmas -/

theorem pointsInv_ensureUser (us : UserMap) (k : String) (now : Int)
    (h : PointsInv us) : PointsInv (ensureUser us k now) := by
  unfold ensureUser
  cases List.lookup k us with
  | some r => exact h
  | none =>
    intro p hp
    rcases List.mem_append.mp hp with hin | hin
    · exact h p hin
    · simp at hin
      simp [hin, defaultUserRec]

theorem pointsInv_updateUser (us : UserMap) (k : String) (f : UserRec → UserRec)
    (hf : ∀ r, 0 ≤ r.points → 0 ≤ (f r).points) (h : PointsInv us) :
    PointsInv (updateUser us k f) := by
  intro p hp
  rcases List.mem_map.mp hp with ⟨q, hq, hpq⟩
  by_cases hqk : q.1 = k
  · simp [hqk] at hpq
    subst hpq
    exact hf q.2 (h q hq)
  · simp [hqk] at hpq
    subst hpq
    exact h q hq

theorem pointsInv_setPoints (us : UserMap) (k : String) (v now : Int)
    (h : PointsInv us) : PointsInv (setPoints us k v now) := by
  unfold setPoints
  exact pointsInv_updateUser _ _ _ (fun r _ => le_max_left 0 v)
    (pointsInv_ensureUser us k now h)

theorem pointsInv_addPoints (us : UserMap) (k : String) (d now : Int)
    (h : PointsInv us) : PointsInv (addPoints us k d now) :=
  pointsInv_setPoints _ _ _ _ h

theorem pointsInv_setCooldown (us : UserMap) (k cmd : String) (now : Int)
    (h : PointsInv us) : PointsInv (setCooldown us k cmd now) := by
  unfold setCooldown
  exact pointsInv_updateUser _ _ _ (fun r hr => hr)
    (pointsInv_ensureUser us k now h)

theorem awardTickRec_nonneg (now window ppm : Int) (r : UserRec)
    (h : 0 ≤ r.points) : 0 ≤ (awardTickRec now window ppm r).points := by
  unfold awardTickRec
  split_ifs <;> simp [h]

theorem pointsInv_awardTick (now window ppm : Int) (us : UserMap)
    (h : PointsInv us) : PointsInv (awardActivePointsTick now window ppm us) := by
  intro p hp
  rcases List.mem_map.mp hp with ⟨q, hq, hpq⟩
  subst hpq
  exact awardTickRec_nonneg now window ppm q.2 (h q hq)

theorem enqueueGamble_fst (cdef : CmdDef) (platform reply_name user_key args : String)
    (us : UserMap) (gq : QueueState) (cfg : SlotsCfg) (tid : String) (now : Int) :
    (enqueueGamble cdef platform reply_name user_key args us gq cfg tid now).1 =
      ensureUser us user_key now := by
  simp only [enqueueGamble]
  split_ifs <;> rfl

theorem pointsInv_handleBotCommand (cdef : CmdDef)
    (platform reply_name user_key user_tier args : String) (bots : List String)
    (us : UserMap) (gq : QueueState) (inflight : List (String × InflightMeta))
    (cfg : SlotsCfg) (tid : String) (now : Int) (h : PointsInv us) :
    PointsInv (handleBotCommand cdef platform reply_name user_key user_tier args
      bots us gq inflight cfg tid now).us := by
  have h0 : PointsInv (ensureUser us user_key now) := pointsInv_ensureUser _ _ _ h
  have h1 : PointsInv (setCooldown (ensureUser us user_key now) user_key cdef.command now) :=
    pointsInv_setCooldown _ _ _ _ h0
  simp only [handleBotCommand, enqueueGamble_fst]
  split_ifs <;>
    first
      | exact h
      | exact h0
      | exact h1
      | exact pointsInv_ensureUser _ _ _ h1
      | exact pointsInv_setPoints _ _ _ _ h1

theorem pointsInv_handleGambleReply (rec : WorkerReplyRec) (us : UserMap)
    (gq : QueueState) (inflight : List (String × InflightMeta)) (cfg : SlotsCfg)
    (now : Int) (h : PointsInv us) (o : SettleOut)
    (ho : handleGambleReply rec us gq inflight cfg now = Except.ok o) :
    PointsInv o.us := by
  unfold handleGambleReply at ho
  split at ho
  · cases ho
    exact h
  · split at ho
    · cases ho
      exact h
    · dsimp only at ho
      split at ho
      · exact Except.noConfusion ho
      · cases ho
        exact pointsInv_setPoints _ _ _ _ (pointsInv_ensureUser _ _ _ h)

theorem markDone_eq (gq : QueueState) (b now : Int) :
    markDone gq b now =
      { queue := gq.queue, active := none,
        busy_until_ts :=
          if (decide (b ≠ 0) && decide (b > 0)) = true then now + max 0 b / 1000
          else now } := by
  unfold markDone
  split <;> rfl

theorem pointsInv_applyBankOp (st : BankState) (op : BankOp)
    (h : PointsInv st.us) : PointsInv (applyBankOp st op).us := by
  cases op with
  | setPts k v now => exact pointsInv_setPoints _ _ _ _ h
  | addPts k d now => exact pointsInv_addPoints _ _ _ _ h
  | earnTick now window ppm => exact pointsInv_awardTick _ _ _ _ h
  | botCmd cdef platform reply_name user_key user_tier args bots cfg tid now =>
    exact pointsInv_handleBotCommand cdef platform reply_name user_key user_tier
      args bots st.us st.gq st.inflight cfg tid now h
  | gambleReply rec cfg now =>
    simp only [applyBankOp]
    cases hE : handleGambleReply rec st.us st.gq st.inflight cfg now with
    | ok o =>
      simpa using pointsInv_handleGambleReply rec st.us st.gq st.inflight cfg now h o hE
    | error e => simpa using h

/-- C2.  Points are never negative: every state reachable from the initial
router state through the points-writing operations (set-points/add-points,
the periodic earning tick, bot-command handling with its cost deduction and
gamble enqueue, and gamble settlement — likes/shares/messages credit through
`add_points`) satisfies `points ≥ 0` in every user record, and `set_points`
clamps any negative input to 0. -/
theorem points_never_negative :
    (∀ ops : List BankOp, PointsInv ((List.foldl applyBankOp initBank ops).us)) ∧
    (∀ (us : UserMap) (k : String) (v now : Int), v < 0 →
      getPoints (setPoints us k v now) k = 0) := by
  constructor
  · have main : ∀ (ops : List BankOp) (st : BankState), PointsInv st.us →
        PointsInv ((List.foldl applyBankOp st ops).us) := by
      intro ops
      induction ops with
      | nil => intro st hst; simpa using hst
      | cons op tl ih =>
        intro st hst
        simpa using ih (applyBankOp st op) (pointsInv_applyBankOp st op hst)
    intro ops
    refine main ops initBank ?_
    intro p hp
    simp [initBank] at hp
  · intro us k v now hv
    rw [getPoints_setPoints]
    omega

/-- C2, witness: `set_points` with `-5` stores `0`. -/
theorem points_never_negative_witness :
    (-5 : Int) < 0 ∧ getPoints (setPoints [] "u" (-5) 0) "u" = 0 :=
  ⟨by decide, points_never_negative.2 [] "u" (-5) 0 (by decide)⟩

/-- C4, counterexample.  The claim says every bot — including the gamble
bot — dead-letters a reply whose task id matches nothing.  For the gamble
bot the router returns early without writing anything: a stray gamble reply
(`task_id = "g_zzz"` against active `"g_abc"`) produces the unchanged state
with an empty deadletter list, not an `orphan_reply` append. -/
theorem gamble_orphan_silently_dropped :
    handleWorkerReply "gamble" exOrphanReply exUs exGqActive [] defaultSlotsConfig 7 =
      Except.ok (settleUnchanged exUs exGqActive []) ∧
    (settleUnchanged exUs exGqActive []).deadletter = [] := by
  constructor
  · rfl
  · rfl

/-- C4, amended.  For every non-gamble bot, a `reply` record whose task id
has no inflight entry is appended to that bot's deadletter and the rest of
the router state is unchanged; the gamble bot instead silently ignores a
reply that does not match the active task (no deadletter append), also
leaving the state unchanged. -/
theorem orphan_reply_handling (bot_id : String) (rec : WorkerReplyRec)
    (us : UserMap) (gq : QueueState) (inflight : List (String × InflightMeta))
    (cfg : SlotsCfg) (now : Int) (hr : rec.rtype = "reply") :
    (bot_id ≠ "gamble" → List.lookup rec.task_id inflight = none →
      handleWorkerReply bot_id rec us gq inflight cfg now =
        Except.ok { settleUnchanged us gq inflight with deadletter := [(bot_id, rec)] }) ∧
    (bot_id = "gamble" →
      (∀ a, gq.active = some a → a.task_id = "" ∨ rec.task_id ≠ a.task_id) →
      handleWorkerReply bot_id rec us gq inflight cfg now =
        Except.ok (settleUnchanged us gq inflight)) := by
  constructor
  · intro hbot hnone
    simp [handleWorkerReply, hr, hbot, hnone]
  · intro hbot hmis
    subst hbot
    cases hA : gq.active with
    | none => simp [handleWorkerReply, hr, handleGambleReply, hA]
    | some a =>
      rcases hmis a hA with hid | hne
      · simp [handleWorkerReply, hr, handleGambleReply, hA, hid]
      · simp [handleWorkerReply, hr, handleGambleReply, hA, hne]

/-- C4, witness: a stray reply is dead-lettered by the spotify bot and
silently dropped by the gamble bot. -/
theorem orphan_reply_handling_witness :
    handleWorkerReply "spotify" exOrphanReply exUs exGqActive [] defaultSlotsConfig 7 =
      Except.ok { settleUnchanged exUs exGqActive [] with
        deadletter := [("spotify", exOrphanReply)] } ∧
    handleWorkerReply "gamble" exOrphanReply exUs exGqActive [] defaultSlotsConfig 7 =
      Except.ok (settleUnchanged exUs exGqActive []) :=
  ⟨(orphan_reply_handling "spotify" exOrphanReply exUs exGqActive [] defaultSlotsConfig 7
      (by decide)).1 (by decide) (by decide),
   (orphan_reply_handling "gamble" exOrphanReply exUs exGqActive [] defaultSlotsConfig 7
      (by decide)).2 rfl
      (by intro a ha; cases ha; exact Or.inr (by decide))⟩

/-- C6.  For a non-gamble bot command with positive cost invoked by a user
whose points are below the cost (passing the tier and cooldown gates), the
router emits exactly the insufficient-funds reply, dispatches nothing,
registers no inflight entry, writes no ledger record, and the user state is
touched only by the cooldown stamp — in particular the user's points are
unchanged. -/
theorem insufficient_funds_atomic (cdef : CmdDef)
    (platform reply_name user_key user_tier args : String) (bots : List String)
    (us : UserMap) (gq : QueueState) (inflight : List (String × InflightMeta))
    (cfg : SlotsCfg) (tid : String) (now : Int)
    (hbot : botIdOf cdef ≠ "gamble")
    (htier : tier_ge user_tier (minTierOf cdef) = true)
    (hcool : cooldownOk (ensureUser us user_key now) user_key cdef.command
      cdef.cooldown_seconds (pyUpper cdef.cooldown_bypass_tier) user_tier now = true)
    (hcost : 0 < cdef.cost_points)
    (hpts : getPoints us user_key < cdef.cost_points) :
    handleBotCommand cdef platform reply_name user_key user_tier args bots us gq
        inflight cfg tid now =
      { us := setCooldown (ensureUser us user_key now) user_key cdef.command now,
        gq := gq, inflight := inflight,
        replies := [{ ts := now, platform := platform, reply_name := reply_name,
                      text := insufficientFundsText cdef.command cdef.cost_points
                        (getPoints us user_key),
                      bot := botIdOf cdef }],
        ledger := [], tasksOut := [], gambleEnqueued := none } ∧
    getPoints (setCooldown (ensureUser us user_key now) user_key cdef.command now)
        user_key = getPoints us user_key := by
  have hgp : getPoints (setCooldown (ensureUser us user_key now) user_key
      cdef.command now) user_key = getPoints us user_key := by
    rw [getPoints_setCooldown, getPoints_ensureUser]
  refine ⟨?_, hgp⟩
  simp [handleBotCommand, htier, hcool, hbot, hgp, hcost, hpts]

/-- C6, witness: `!song` (spotify bot, cost 50) from a user with 30 points. -/
theorem insufficient_funds_atomic_witness :
    handleBotCommand exCmdSpot "tiktok" "bob" "tiktok:bob" "EVERYONE" "queen"
        ["spotify", "gamble"] exUsPoor exGqIdle [] defaultSlotsConfig "t_1" 10 =
      { us := setCooldown (ensureUser exUsPoor "tiktok:bob" 10) "tiktok:bob"
          exCmdSpot.command 10,
        gq := exGqIdle, inflight := [],
        replies := [{ ts := 10, platform := "tiktok", reply_name := "bob",
                      text := insufficientFundsText exCmdSpot.command
                        exCmdSpot.cost_points (getPoints exUsPoor "tiktok:bob"),
                      bot := botIdOf exCmdSpot }],
        ledger := [], tasksOut := [], gambleEnqueued := none } ∧
    getPoints (setCooldown (ensureUser exUsPoor "tiktok:bob" 10) "tiktok:bob"
        exCmdSpot.command 10) "tiktok:bob" = getPoints exUsPoor "tiktok:bob" :=
  insufficient_funds_atomic exCmdSpot "tiktok" "bob" "tiktok:bob" "EVERYONE" "queen"
    ["spotify", "gamble"] exUsPoor exGqIdle [] defaultSlotsConfig "t_1" 10
    (by decide) (by decide) (by decide) (by decide) (by decide)

/-- C7.  Gamble bet parsing over `spendable = max(0, points − reserved)`:
an empty argument yields `min(50, spendable)`; `"max"`/`"all"` yield exactly
`spendable` (with `reserved > 0` that is `points − reserved`, strictly below
a positive points balance); a decimal-integer argument yields `max(0, n)`;
any other argument yields 0; and `enqueue_gamble` never enqueues a bet that
is `≤ 0` or exceeds `spendable` — every enqueued task's bet lies inside
`(0, spendable]` and is appended at the queue's tail. -/
theorem gamble_bet_parsing (cdef : CmdDef)
    (platform reply_name user_key args : String) (us : UserMap) (gq : QueueState)
    (cfg : SlotsCfg) (tid : String) (now : Int) (spendable : Int)
    (hs : spendable =
      max 0 (getPoints us user_key - reservedPointsForUser gq user_key)) :
    (parseBet "" spendable = min 50 spendable) ∧
    (parseBet "max" spendable = spendable ∧ parseBet "all" spendable = spendable) ∧
    (0 < reservedPointsForUser gq user_key →
      reservedPointsForUser gq user_key ≤ getPoints us user_key →
      parseBet "max" spendable =
        getPoints us user_key - reservedPointsForUser gq user_key ∧
      (0 < getPoints us user_key →
        parseBet "max" spendable < getPoints us user_key)) ∧
    (∀ n : Int, pyIntOfString (pyLower (pyStrip args)) = some n →
      parseBet args spendable = max 0 n) ∧
    (pyIntOfString (pyLower (pyStrip args)) = none → pyLower (pyStrip args) ≠ "" →
      pyLower (pyStrip args) ≠ "max" → pyLower (pyStrip args) ≠ "all" →
      parseBet args spendable = 0) ∧
    (parseBet args spendable ≤ 0 ∨ spendable < parseBet args spendable →
      (enqueueGamble cdef platform reply_name user_key args us gq cfg tid now).2.enqueued
        = none ∧
      (enqueueGamble cdef platform reply_name user_key args us gq cfg tid now).2.gq
        = gq) ∧
    (∀ t : GambleTask,
      (enqueueGamble cdef platform reply_name user_key args us gq cfg tid now).2.enqueued
        = some t →
      0 < t.bet ∧ t.bet ≤ spendable ∧
      (enqueueGamble cdef platform reply_name user_key args us gq cfg tid now).2.gq.queue
        = gq.queue ++ [t]) := by
  have hep : getPoints (ensureUser us user_key now) user_key = getPoints us user_key :=
    getPoints_ensureUser us user_key now user_key
  have hs0 : 0 ≤ spendable := hs ▸ le_max_left 0 _
  refine ⟨?_, ⟨rfl, rfl⟩, ?_, ?_, ?_, ?_, ?_⟩
  · show (if spendable > 0 then min 50 spendable else 0) = min 50 spendable
    split_ifs with h
    · rfl
    · have h0 : spendable = 0 := le_antisymm (not_lt.mp h) hs0
      rw [h0]
      decide
  · intro h1 h2
    have hmax : max 0 (getPoints us user_key - reservedPointsForUser gq user_key) =
        getPoints us user_key - reservedPointsForUser gq user_key :=
      max_eq_right (by omega)
    constructor
    · show spendable = _
      rw [hs, hmax]
    · intro h3
      show spendable < _
      rw [hs, hmax]
      omega
  · intro n hn
    have ha1 : pyLower (pyStrip args) ≠ "" := by
      intro h
      rw [h, show pyIntOfString "" = none from by decide] at hn
      exact Option.noConfusion hn
    have ha2 : pyLower (pyStrip args) ≠ "max" := by
      intro h
      rw [h, show pyIntOfString "max" = none from by decide] at hn
      exact Option.noConfusion hn
    have ha3 : pyLower (pyStrip args) ≠ "all" := by
      intro h
      rw [h, show pyIntOfString "all" = none from by decide] at hn
      exact Option.noConfusion hn
    simp [parseBet, ha1, ha2, ha3, hn]
  · intro hnone ha1 ha2 ha3
    simp [parseBet, ha1, ha2, ha3, hnone]
  · intro hout
    rw [hs] at hout
    simp only [enqueueGamble, hep]
    split_ifs with hb1 hb2
    · exact ⟨rfl, rfl⟩
    · exact ⟨rfl, rfl⟩
    · rcases hout with hle | hgt
      · omega
      · omega
  · intro t ht
    rw [hs]
    simp only [enqueueGamble, hep] at ht ⊢
    split_ifs at ht ⊢ with hb1 hb2
    change some _ = some t at ht
    cases ht
    refine ⟨?_, ?_, ?_⟩
    · show 0 < parseBet args
        (max 0 (getPoints us user_key - reservedPointsForUser gq user_key))
      omega
    · show parseBet args
        (max 0 (getPoints us user_key - reservedPointsForUser gq user_key)) ≤
          max 0 (getPoints us user_key - reservedPointsForUser gq user_key)
      omega
    · show (enqueueTask gq _).1.queue = gq.queue ++ [_]
      simp [enqueueTask]

/-- C7, witness: user with 100 points and a reserved bet of 50 (`spendable = 50`);
empty bet gives 50, `max` gives 50, the integer `75` parses to 75 and — being
above `spendable` — is not enqueued. -/
theorem gamble_bet_parsing_witness :
    parseBet "" 50 = min 50 50 ∧ parseBet "max" 50 = 50 ∧
    parseBet "75" 50 = max 0 75 ∧
    (enqueueGamble exCmdSlots "tiktok" "alice" "tiktok:alice" "75" exUs exGqIdle
      defaultSlotsConfig "g_w" 9).2.enqueued = none := by
  have H := gamble_bet_parsing exCmdSlots "tiktok" "alice" "tiktok:alice" "75"
    exUs exGqIdle defaultSlotsConfig "g_w" 9 50 (by decide)
  exact ⟨H.1, H.2.1.1, H.2.2.2.1 75 (by decide),
    (H.2.2.2.2.2.1 (Or.inr (by decide))).1⟩

/-- C1.  Settling a reply that matches the active gamble task, with effective
bet `b` and points-before `p`: the payout is the worker-supplied payout when
present (and otherwise `b × mult` for the resolved multiplier), clamped to
`≥ 0`; the user's new points are `max 0 (p + (payout − b))`; and the single
appended ledger record carries `delta = payout − b`, `before = p` and
`after` equal to the new points. -/
theorem gamble_settlement_arithmetic (rec : WorkerReplyRec) (us : UserMap)
    (gq : QueueState) (inflight : List (String × InflightMeta)) (liveCfg : SlotsCfg)
    (now : Int) (active : GambleTask) (b mult payout pAfter : Int)
    (hA : gq.active = some active) (hid : active.task_id ≠ "")
    (hmatch : rec.task_id = active.task_id)
    (hbet : effBet rec.game active.bet = Except.ok b)
    (hmult : mult = (gambleOutcome rec.game ((active.slots_cfg).getD liveCfg)).1)
    (hpay : payout = max 0 (gamblePayoutRaw rec.game b mult))
    (hafter : pAfter = max 0 (getPoints us active.user_key + (payout - b))) :
    ∃ o : SettleOut,
      handleGambleReply rec us gq inflight liveCfg now = Except.ok o ∧
      getPoints o.us active.user_key = pAfter ∧
      (rec.game.payout_chain = JNum.absent → payout = max 0 (b * mult)) ∧
      (∀ v : Int, rec.game.payout_chain = JNum.val v → payout = max 0 v) ∧
      o.ledger.length = 1 ∧
      ∀ l ∈ o.ledger, l.delta = payout - b ∧
        l.before = getPoints us active.user_key ∧ l.after = pAfter ∧
        l.platform = active.platform ∧ l.user_key = active.user_key ∧
        l.bot = "gamble" ∧ l.ts = now := by
  subst hmult hpay hafter
  have hcond : (decide (active.task_id = "") || decide (rec.task_id ≠ active.task_id))
      = false := by
    simp [hid, hmatch]
  have hep : getPoints (ensureUser us active.user_key now) active.user_key =
      getPoints us active.user_key := getPoints_ensureUser _ _ _ _
  have hmm : ∀ X : Int, max 0 (max 0 X) = max 0 X :=
    fun X => max_eq_right (le_max_left _ _)
  unfold handleGambleReply
  rw [hA]
  simp only [hcond, Bool.false_eq_true, if_false, hbet]
  refine ⟨_, rfl, ?_, ?_, ?_, rfl, ?_⟩
  · simp [getPoints_setPoints, hep, hmm]
  · intro h
    simp [gamblePayoutRaw, h]
  · intro v h
    simp [gamblePayoutRaw, h]
  · intro l hl
    simp only [List.mem_singleton] at hl
    subst hl
    refine ⟨rfl, hep, by simp [hep], rfl, rfl, rfl, rfl⟩

/-- C1, witness: the win-path settlement of `exTask` (bet 50, user at 100
points) by a worker reply carrying `payout = 1250`: new points 1300, ledger
delta `1250 − 50`. -/
theorem gamble_settlement_arithmetic_witness :
    ∃ o : SettleOut,
      handleGambleReply exWinReply exUs exGqActive [] defaultSlotsConfig 60 =
        Except.ok o ∧
      getPoints o.us exTask.user_key = 1300 ∧
      (exWinReply.game.payout_chain = JNum.absent → (1250 : Int) = max 0 (50 * 25)) ∧
      (∀ v : Int, exWinReply.game.payout_chain = JNum.val v → 1250 = max 0 v) ∧
      o.ledger.length = 1 ∧
      ∀ l ∈ o.ledger, l.delta = 1250 - 50 ∧
        l.before = getPoints exUs exTask.user_key ∧ l.after = 1300 ∧
        l.platform = exTask.platform ∧ l.user_key = exTask.user_key ∧
        l.bot = "gamble" ∧ l.ts = 60 :=
  gamble_settlement_arithmetic exWinReply exUs exGqActive [] defaultSlotsConfig 60
    exTask 50 25 1250 1300 rfl (by decide) rfl (by decide) (by decide) (by decide)
    (by decide)

/-- C10.  When the worker's `game` object carries a `bet` field, that value —
not the bet reserved on the active task — is the effective bet of the
settlement, and the whole settlement result (points, result line, ledger) is
invariant under changes to the active task's reserved bet; likewise a
worker-supplied numeric multiplier short-circuits the config-based
`eval_slots` resolution, and a worker-supplied payout replaces `bet × mult`. -/
theorem gamble_worker_override (rec : WorkerReplyRec) (us : UserMap)
    (gq : QueueState) (inflight : List (String × InflightMeta)) (liveCfg : SlotsCfg)
    (now : Int) (active : GambleTask) (wb : Int)
    (hid : active.task_id ≠ "") (hmatch : rec.task_id = active.task_id)
    (hwb : rec.game.bet = JNum.val wb) :
    effBet rec.game active.bet = Except.ok wb ∧
    (∀ b1 b2 : Int,
      handleGambleReply rec us { gq with active := some { active with bet := b1 } }
        inflight liveCfg now =
      handleGambleReply rec us { gq with active := some { active with bet := b2 } }
        inflight liveCfg now) ∧
    (∀ m : Int, rec.game.mult_chain = JNum.val m →
      ∀ cfg : SlotsCfg, (gambleOutcome rec.game cfg).1 = m) ∧
    (∀ v bet mult : Int, rec.game.payout_chain = JNum.val v →
      gamblePayoutRaw rec.game bet mult = v) := by
  have heff : ∀ ab : Int, effBet rec.game ab = Except.ok wb := by
    intro ab
    simp [effBet, hwb]
  refine ⟨heff active.bet, ?_, ?_, ?_⟩
  · intro b1 b2
    have hcond : (decide (active.task_id = "") || decide (rec.task_id ≠ active.task_id))
        = false := by
      simp [hid, hmatch]
    unfold handleGambleReply
    dsimp only
    simp only [hcond, Bool.false_eq_true, if_false, heff]
    simp [markDone_eq]
  · intro m hm cfg
    simp [gambleOutcome, hm]
  · intro v bet mult hv
    simp [gamblePayoutRaw, hv]

/-- C10, witness: a worker reply carrying `bet = 10` and `multiplier = 3`
against `exTask` (reserved bet 50): the effective bet is 10, the settlement
does not depend on the reserved bet (50 vs 77), and the resolved multiplier
is the worker's 3. -/
theorem gamble_worker_override_witness :
    effBet exOverrideReply.game exTask.bet = Except.ok 10 ∧
    (handleGambleReply exOverrideReply exUs
        { exGqActive with active := some { exTask with bet := 50 } } []
        defaultSlotsConfig 60 =
      handleGambleReply exOverrideReply exUs
        { exGqActive with active := some { exTask with bet := 77 } } []
        defaultSlotsConfig 60) ∧
    (gambleOutcome exOverrideReply.game defaultSlotsConfig).1 = 3 :=
  have H := gamble_worker_override exOverrideReply exUs exGqActive []
    defaultSlotsConfig 60 exTask 10 (by decide) (by decide) rfl
  ⟨H.1, H.2.1 50 77, H.2.2.1 3 rfl defaultSlotsConfig⟩

/-- C5, counterexample.  The claim computes the busy window with a ceiling
division, `busy_until_ts = now + ⌈blocking_ms/1000⌉`; `mark_done` actually
uses Python floor division (`max(0, blocking_ms) // 1000`).  With
`blocking_ms = 1500` at `now = 100` the code stores `101`, not
`100 + ⌈1500/1000⌉ = 102`. -/
theorem mark_done_ceiling_counterexample :
    (markDone exGqIdle 1500 100).busy_until_ts = 101 ∧
    ¬ ((markDone exGqIdle 1500 100).busy_until_ts = 100 + (1500 + 999) / 1000) := by
  decide

/-- C5, amended.  `mark_done` clears the active slot, and sets
`busy_until_ts` to `now + ⌊blocking_ms/1000⌋` (floor division) when
`blocking_ms > 0`, and to `now` when `blocking_ms ≤ 0`. -/
theorem mark_done_busy_window (gq : QueueState) (b now : Int) :
    (0 < b → markDone gq b now =
      { queue := gq.queue, active := none, busy_until_ts := now + b / 1000 }) ∧
    (b ≤ 0 → markDone gq b now =
      { queue := gq.queue, active := none, busy_until_ts := now }) := by
  constructor
  · intro hb
    simp [markDone, hb, hb.ne', max_eq_right hb.le]
  · intro hb
    simp [markDone, not_lt.mpr hb]

/-- C5, witness for `mark_done_busy_window` at `blocking_ms = 3200`,
`now = 100` (stores `103`) and at `blocking_ms = 0` (stores `now`). -/
theorem mark_done_busy_window_witness :
    ((0:Int) < 3200 ∧ markDone exGqIdle 3200 100 =
      { queue := exGqIdle.queue, active := none, busy_until_ts := 100 + 3200 / 1000 }) ∧
    ((0:Int) ≤ 0 ∧ markDone exGqIdle 0 100 =
      { queue := exGqIdle.queue, active := none, busy_until_ts := 100 }) :=
  ⟨⟨by decide, (mark_done_busy_window exGqIdle 3200 100).1 (by decide)⟩,
   ⟨by decide, (mark_done_busy_window exGqIdle 0 100).2 (by decide)⟩⟩

/-- C8, code bug.  The emitter's `clamp` is meant to truncate the delivered
message to `max_len` characters, replacing the last character with the
ellipsis `…` (U+2026).  The source instead appends the three-character
mojibake sequence U+00E2 U+20AC U+00A6 (the UTF-8 bytes of `…` misdecoded),
so a truncated message has length `max_len + 2` and ends in `¦`, violating
both the length bound and the ellipsis claim.  Evaluated here on a concrete
reply intent formed by the emitter main loop with `max_len = 20`. -/
theorem clamp_mojibake_code_bug :
    (formReplyMsg "gamble" "" "alice" "you won 1250 pts on the slots" 20).length = 22 ∧
    ¬ ((formReplyMsg "gamble" "" "alice" "you won 1250 pts on the slots" 20).length ≤ 20) ∧
    (formReplyMsg "gamble" "" "alice" "you won 1250 pts on the slots" 20).data.getLast?
      = some '¦' ∧
    ¬ ((formReplyMsg "gamble" "" "alice" "you won 1250 pts on the slots" 20).data.getLast?
      = some '…') ∧
    clamp "hello world" 5 = "hell" ++ "â€¦" := by
  decide

/-- C9, code bug.  `parse_command` raises `IndexError` (modelled by
`Except.error ()`) on a message consisting of `!` followed by whitespace
only: `raw.split(None, 1)` is empty and `parts[0]` is out of range.  The
exception aborts the rest of a polled batch (`parseBatch`), whose offsets
were already advanced — even though later events are well-formed.  Ordinary
inputs parse normally. -/
theorem parse_command_whitespace_raises :
    parse_command "! " = Except.error () ∧
    parse_command "!\t " = Except.error () ∧
    parseBatch ["!points", "! ", "!slots 50"] = Except.error () ∧
    parse_command "!slots 50" = Except.ok (some ("slots", "50")) ∧
    parse_command "!" = Except.ok none ∧
    parse_command "hello" = Except.ok none := by
  decide

/-- C3.  On a router tick with the gamble bot configured, a task is appended
to the gamble inbox iff `active` is null, `now ≥ busy_until_ts` and the queue
is nonempty; on dispatch the head of the queue becomes the active task and is
the (single) inbox append; while `active ≠ null` or `now < busy_until_ts`
nothing happens; and (for any bot configuration) a dispatch only occurs from
a state with no active task, so the `active` slot never holds more than the
one dispatched task. -/
theorem gamble_dispatch_gating (gq : QueueState) (now : Int) :
    ((maybeDispatchGamble true gq now).2 ≠ [] ↔
      gq.active = none ∧ gq.busy_until_ts ≤ now ∧ gq.queue ≠ []) ∧
    (∀ t, (maybeDispatchGamble true gq now).2 = [t] →
      gq.queue.head? = some t ∧ (maybeDispatchGamble true gq now).1.active = some t ∧
      (maybeDispatchGamble true gq now).1.queue = gq.queue.tail) ∧
    ((gq.active ≠ none ∨ now < gq.busy_until_ts) →
      maybeDispatchGamble true gq now = (gq, [])) ∧
    (∀ hb : Bool, (maybeDispatchGamble hb gq now).2 ≠ [] → gq.active = none) := by
  obtain ⟨q, a, busy⟩ := gq
  cases a <;> cases q <;> by_cases hlt : now < busy <;>
    simp [maybeDispatchGamble, canDispatch, popNextForDispatch, hlt] <;>
    omega

/-- C3, witness: from an idle state with one queued task at `now = 5` the
head is dispatched; from a state with an active task nothing happens. -/
theorem gamble_dispatch_gating_witness :
    maybeDispatchGamble true exGqActive 5 = (exGqActive, []) ∧
    ((maybeDispatchGamble true exGqIdle 5).2 ≠ [] ↔
      (exGqIdle.active = none ∧ exGqIdle.busy_until_ts ≤ 5 ∧ exGqIdle.queue ≠ [])) :=
  ⟨(gamble_dispatch_gating exGqActive 5).2.2.1 (Or.inl (by decide)),
   (gamble_dispatch_gating exGqIdle 5).1⟩

end ChatFeedManager
